import Mathlib

/-!
Verification development for the laptop-specification extraction engine of
amazon_parser.py: the CPU/GPU pattern classifiers, the unit normalizers and
the conflict-resolving specification assembler.

The embedding is shallow: Python strings are modelled as ASCII character
lists, the regular-expression calls are executed by a small backtracking
matcher with Python re semantics (leftmost search position wins, greedy
quantifiers, left-preferring alternation, capture groups of a failed branch
are undone), and optional values are modelled with Option.  Character
classes \d and \s are modelled over ASCII, as are lower/upper casing, which
matches the source on every string the program manipulates.
-/

/-- ASCII decimal digit test, the model of the regex class \d. -/
def isDigitC (c : Char) : Bool :=
  '0' ≤ c && c ≤ '9'

/-- The characters of the regex class \s (Python whitespace, ASCII part). -/
def wspChars : List Char :=
  [' ', '\t', '\n', '\r', '\x0b', '\x0c']

/-- ASCII lower-casing of one character, model of str.lower on one char. -/
def toLowerC (c : Char) : Char :=
  if 'A' ≤ c && c ≤ 'Z' then Char.ofNat (c.toNat + 32) else c

/-- ASCII upper-casing of one character, model of str.upper on one char. -/
def toUpperC (c : Char) : Char :=
  if 'a' ≤ c && c ≤ 'z' then Char.ofNat (c.toNat - 32) else c

/-- str.lower over a whole string. -/
def toLowerL (cs : List Char) : List Char :=
  cs.map toLowerC

/-- str.upper over a whole string. -/
def toUpperL (cs : List Char) : List Char :=
  cs.map toUpperC

/-- str.strip: drop leading and trailing whitespace. -/
def stripL (cs : List Char) : List Char :=
  ((cs.dropWhile (fun c => wspChars.contains c)).reverse.dropWhile
    (fun c => wspChars.contains c)).reverse

/-- Does the first list occur at the head of the second? -/
def leadsWith : List Char → List Char → Bool
  | [], _ => true
  | _ :: _, [] => false
  | a :: as, b :: bs => a == b && leadsWith as bs

/-- Python substring containment, the model of the expression needle in hay. -/
def hasSub (needle : List Char) : List Char → Bool
  | [] => leadsWith needle []
  | c :: rest => leadsWith needle (c :: rest) || hasSub needle rest

/-- Regular expressions as used by the source: literals and classes,
concatenation, alternation, a star over a character class (the only star
shape the source uses, \s*), greedy option, and numbered capture groups. -/
inductive RE where
  | eps : RE
  | cls : List Char → RE
  | seq : RE → RE → RE
  | alt : RE → RE → RE
  | starCls : List Char → RE
  | opt : RE → RE
  | group : Nat → RE → RE

/-- Capture bindings accumulated along the current (successful) match path:
group index paired with the captured characters, most recent first. -/
abbrev Caps := List (Nat × List Char)

/-- Greedy matching of a character-class star: consume as many class
characters as possible, backtracking one at a time into the continuation. -/
def starTry (p : List Char) (k : List Char → Caps → Option Caps) :
    List Char → Caps → Option Caps
  | [], caps => k [] caps
  | c :: rest, caps =>
    if p.contains c then
      match starTry p k rest caps with
      | some r => some r
      | none => k (c :: rest) caps
    else
      k (c :: rest) caps

/-- Backtracking matcher in continuation-passing style, mirroring the Python
re engine: alternation prefers its left branch, option prefers matching,
stars are greedy, and captures recorded in an abandoned branch are undone
because the continuation carries them. -/
def matchRE : RE → List Char → Caps → (List Char → Caps → Option Caps) → Option Caps
  | .eps, cs, caps, k => k cs caps
  | .cls p, cs, caps, k =>
    match cs with
    | [] => none
    | c :: rest => if p.contains c then k rest caps else none
  | .seq a b, cs, caps, k =>
    matchRE a cs caps (fun cs2 caps2 => matchRE b cs2 caps2 k)
  | .alt a b, cs, caps, k =>
    match matchRE a cs caps k with
    | some r => some r
    | none => matchRE b cs caps k
  | .starCls p, cs, caps, k => starTry p k cs caps
  | .opt a, cs, caps, k =>
    match matchRE a cs caps k with
    | some r => some r
    | none => k cs caps
  | .group i a, cs, caps, k =>
    matchRE a cs caps (fun rest caps2 =>
      k rest ((i, cs.take (cs.length - rest.length)) :: caps2))

/-- Python re.search: attempt the match at every start position from the
left; the first position admitting a match wins, with the backtracking
order of matchRE deciding the match there.  Returns the capture bindings. -/
def reSearch (r : RE) : List Char → Option Caps
  | [] => matchRE r [] [] (fun _ caps => some caps)
  | c :: rest =>
    match matchRE r (c :: rest) [] (fun _ caps => some caps) with
    | some caps => some caps
    | none => reSearch r rest

/-- Read one capture group from the bindings of a match (None when the
group did not participate in the match). -/
def getGroup (caps : Caps) (i : Nat) : Option (List Char) :=
  (caps.find? (fun b => b.1 == i)).map (fun b => b.2)

/-- match.groups(): the tuple of groups 1..n as optional strings. -/
def groupsOf (n : Nat) (caps : Caps) : List (Option String) :=
  (List.range n).map (fun i => (getGroup caps (i + 1)).map List.asString)

/-- A literal-string regex (already in the needed case). -/
def lit (s : String) : RE :=
  s.data.foldr (fun c r => RE.seq (RE.cls [c]) r) RE.eps

/-- A case-insensitive literal-string regex, for patterns compiled with
re.IGNORECASE and applied to text that was not lower-cased. -/
def litCI (s : String) : RE :=
  s.data.foldr (fun c r => RE.seq (RE.cls [toLowerC c, toUpperC c]) r) RE.eps

/-- Left-preferring alternation of a non-empty list of regexes. -/
def altL : List RE → RE
  | [] => RE.eps
  | [r] => r
  | r :: rest => RE.alt r (altL rest)

/-- One \d. -/
def dOne : RE := RE.cls (List.map Char.ofNat (List.range' 48 10))

/-- \d\d. -/
def dTwo : RE := RE.seq dOne dOne

/-- \d{3}. -/
def dThree : RE := RE.seq dOne dTwo

/-- \d{4}. -/
def dFour : RE := RE.seq dOne dThree

/-- \d{1,2}, greedy. -/
def dOneTwo : RE := RE.seq dOne (RE.opt dOne)

/-- \d{3,4}, greedy. -/
def dThreeFour : RE := RE.seq dThree (RE.opt dOne)

/-- \d{4,5}, greedy. -/
def dFourFive : RE := RE.seq dFour (RE.opt dOne)

/-- \d+, greedy. -/
def dPlus : RE := RE.seq dOne (RE.starCls (List.map Char.ofNat (List.range' 48 10)))

/-- \s*. -/
def wsp : RE := RE.starCls wspChars

/-- A pattern together with its number of capture groups. -/
structure RePat where
  re : RE
  n : Nat

/-- First pattern of the list that matches the text decides; its groups()
are returned.  Models the for pattern in patterns / re.search loops. -/
def firstMatch (ps : List RePat) (cs : List Char) : Option (List (Option String)) :=
  match ps with
  | [] => none
  | p :: rest =>
    match reSearch p.re cs with
    | some caps => some (groupsOf p.n caps)
    | none => firstMatch rest cs

/-- Concatenation of a list of regexes. -/
def seqL : List RE → RE
  | [] => RE.eps
  | r :: rest => RE.seq r (seqL rest)

/-- Pattern 1 of nvidia_patterns. -/
def nvidiaPat1 : RePat :=
  ⟨seqL [RE.group 1 (altL [lit "nvidia", lit "geforce"]), wsp,
         RE.group 2 (altL [lit "rtx", lit "gtx"]), wsp,
         RE.group 3 (altL [lit "40", lit "30", lit "20", lit "16", lit "10"]),
         RE.group 4 dTwo, wsp,
         RE.opt (RE.group 5 (altL [lit "ti", lit "super"]))], 5⟩

/-- Pattern 2 of nvidia_patterns. -/
def nvidiaPat2 : RePat :=
  ⟨seqL [RE.group 1 (altL [lit "nvidia", lit "geforce", lit "rtx", lit "gtx"]), wsp,
         RE.opt (RE.group 2 (altL [lit "rtx", lit "gtx"])), wsp,
         RE.group 3 (altL [lit "40", lit "30", lit "20", lit "16", lit "10"]),
         RE.group 4 dTwo, wsp,
         RE.opt (RE.group 5 (altL [lit "ti", lit "super"]))], 5⟩

/-- self.nvidia_patterns. -/
def nvidiaPatterns : List RePat := [nvidiaPat1, nvidiaPat2]

/-- Pattern 1 of amd_gpu_patterns. -/
def amdGpuPat1 : RePat :=
  ⟨seqL [lit "amd", wsp, RE.opt (RE.group 1 (lit "radeon")), wsp,
         RE.group 2 (lit "rx"), wsp,
         RE.group 3 (altL [lit "7", lit "6", lit "5", lit "4"]),
         RE.group 4 dThree, wsp, RE.opt (RE.group 5 (lit "xt"))], 5⟩

/-- Pattern 2 of amd_gpu_patterns. -/
def amdGpuPat2 : RePat :=
  ⟨seqL [RE.opt (RE.group 1 (altL [lit "radeon", lit "amd"])), wsp,
         RE.opt (RE.group 2 (lit "rx")), wsp,
         RE.group 3 (altL [lit "7", lit "6", lit "5", lit "4"]),
         RE.group 4 dThree, wsp, RE.opt (RE.group 5 (lit "xt"))], 5⟩

/-- self.amd_gpu_patterns. -/
def amdGpuPatterns : List RePat := [amdGpuPat1, amdGpuPat2]

/-- Pattern 1 of intel_gpu_patterns (Arc, two-digit form). -/
def intelGpuPat1 : RePat :=
  ⟨seqL [RE.opt (RE.group 1 (lit "intel")), wsp, lit "arc", wsp,
         RE.opt (RE.cls ['a', 'b']),
         RE.group 2 (altL [lit "3", lit "5", lit "7"]), RE.group 3 dTwo], 3⟩

/-- Pattern 2 of intel_gpu_patterns (Arc, three-digit form). -/
def intelGpuPat2 : RePat :=
  ⟨seqL [RE.opt (RE.group 1 (lit "intel")), wsp, lit "arc", wsp,
         RE.opt (RE.group 2 (altL [lit "a", lit "b"])), RE.group 3 dThree], 3⟩

/-- Pattern 3 of intel_gpu_patterns (Iris). -/
def intelGpuPat3 : RePat :=
  ⟨seqL [RE.opt (RE.group 1 (lit "intel")), wsp, lit "iris", wsp,
         RE.opt (RE.group 2 (altL
           [RE.seq (lit "xe") (RE.opt (RE.group 3 (RE.seq wsp (lit "max")))),
            lit "pro", lit "plus"]))], 3⟩

/-- Pattern 4 of intel_gpu_patterns (Iris Xe Graphics). -/
def intelGpuPat4 : RePat :=
  ⟨seqL [RE.opt (RE.group 1 (lit "intel")), wsp, lit "iris", wsp,
         lit "xe", wsp, lit "graphics"], 1⟩

/-- Pattern 5 of intel_gpu_patterns (UHD/HD Graphics). -/
def intelGpuPat5 : RePat :=
  ⟨seqL [RE.opt (RE.group 1 (lit "intel")), wsp,
         RE.group 2 (altL [lit "uhd", lit "hd"]), wsp, lit "graphics", wsp,
         RE.opt (RE.group 3 dThreeFour)], 3⟩

/-- self.intel_gpu_patterns. -/
def intelGpuPatterns : List RePat :=
  [intelGpuPat1, intelGpuPat2, intelGpuPat3, intelGpuPat4, intelGpuPat5]

/-- Pattern 1 of intel_cpu_patterns.  The classes [HKF] carry re.IGNORECASE
and are applied to lower-cased text, hence modelled in lower case. -/
def intelCpuPat1 : RePat :=
  ⟨seqL [RE.opt (RE.group 1 (lit "intel")), wsp,
         RE.opt (RE.group 2 (lit "core")), wsp,
         RE.group 3 (altL [lit "ultra", RE.seq (RE.cls ['i']) (RE.cls ['3', '5', '7', '9'])]),
         wsp, RE.opt (RE.cls ['-']), wsp,
         RE.group 4 dOneTwo, RE.group 5 dThree,
         RE.opt (RE.cls ['h', 'k', 'f']), RE.opt (RE.cls ['h', 'k', 'f']), wsp,
         RE.opt (RE.group 6 (altL [lit "h", lit "u", lit "hx", lit "k"]))], 6⟩

/-- Pattern 2 of intel_cpu_patterns. -/
def intelCpuPat2 : RePat :=
  ⟨seqL [RE.opt (RE.group 1 (lit "intel")), wsp,
         RE.opt (RE.group 2 (lit "core")), wsp,
         RE.group 3 (RE.seq (RE.cls ['i']) (RE.cls ['3', '5', '7', '9'])),
         wsp, RE.opt (RE.cls ['-']), wsp,
         RE.group 4 dOneTwo, lit "th", wsp, lit "gen"], 4⟩

/-- self.intel_cpu_patterns. -/
def intelCpuPatterns : List RePat := [intelCpuPat1, intelCpuPat2]

/-- Pattern 1 of amd_cpu_patterns. -/
def amdCpuPat1 : RePat :=
  ⟨seqL [RE.opt (RE.group 1 (lit "amd")), wsp, RE.group 2 (lit "ryzen"), wsp,
         RE.group 3 (RE.cls ['3', '5', '7', '9']), wsp,
         RE.group 4 dFour, RE.opt (RE.cls ['h', 'u', 'x']), wsp,
         RE.opt (RE.group 5 (altL [lit "h", lit "u", lit "hx"]))], 5⟩

/-- Pattern 2 of amd_cpu_patterns. -/
def amdCpuPat2 : RePat :=
  ⟨seqL [RE.opt (RE.group 1 (lit "amd")), wsp, RE.group 2 (lit "ryzen"), wsp,
         RE.group 3 (RE.cls ['3', '5', '7', '9']), wsp,
         RE.opt (RE.cls ['-']), wsp,
         RE.group 4 dFourFive, RE.opt (RE.cls ['h', 'u', 'x']), wsp,
         RE.opt (RE.group 5 (altL [lit "h", lit "u", lit "hx"]))], 5⟩

/-- self.amd_cpu_patterns. -/
def amdCpuPatterns : List RePat := [amdCpuPat1, amdCpuPat2]

/-- The inner Arc-model search pattern (a|b)?(\d{3}). -/
def arcInnerPat : RE :=
  seqL [RE.opt (RE.group 1 (altL [lit "a", lit "b"])), RE.group 2 dThree]

/-- The inner UHD/HD-model search pattern (\d{3,4}). -/
def hdInnerPat : RE := RE.group 1 dThreeFour

/-- The GPUInfo dataclass: all fields default to None. -/
structure GPUInfo where
  brand : Option String := none
  series : Option String := none
  model : Option String := none
  variant : Option String := none
  source : Option String := none
  confidence : Option String := none
deriving DecidableEq

/-- The CPUInfo dataclass: all fields default to None. -/
structure CPUInfo where
  brand : Option String := none
  series : Option String := none
  generation : Option String := none
  model : Option String := none
  variant : Option String := none
  source : Option String := none
  confidence : Option String := none
deriving DecidableEq

/-- Python truthiness of an optional string: None and the empty string are
falsy, every other string truthy. -/
def strTruthy : Option String → Bool
  | none => false
  | some s => !(s == "")

/-- Python str() applied to an optional string: None prints as None. -/
def pyStr : Option String → String
  | none => "None"
  | some s => s

/-- One capture group as an optional string. -/
def pyGroupStr (caps : Caps) (i : Nat) : Option String :=
  (getGroup caps i).map List.asString

/-- Embeds re.match of a pattern \d-repeated-k-times followed by the dollar
anchor: the string is exactly k ASCII digits.  (The anchor's tolerance of a
trailing newline cannot fire on the digit-only group strings it is applied
to.) -/
def exactDigits (k : Nat) (s : String) : Bool :=
  s.data.length == k && s.data.all isDigitC

/-- Embeds re.match of a lower-bounded digit run at the start of a string:
the string begins with at least k ASCII digits. -/
def leadDigits (k : Nat) (s : String) : Bool :=
  (s.data.take k).length == k && (s.data.take k).all isDigitC

/-- SpecificationParser.parse_gpu_from_text.  The text argument is optional
because the title source may be absent; Python routes both None and the
empty string through the early all-default return. -/
def parse_gpu_from_text (text : Option String) (is_technical_detail : Bool) : GPUInfo :=
  if strTruthy text = false then {} else
  let t := stripL (toLowerL (text.getD "").data)
  let gpu_info : GPUInfo :=
    { source := some (if is_technical_detail then "technical_detail" else "title")
      confidence := some (if is_technical_detail then "high" else "low") }
  match firstMatch nvidiaPatterns t with
  | some groups =>
    let g1 : GPUInfo := { gpu_info with brand := some "NVIDIA" }
    let g2 : GPUInfo :=
      if hasSub "rtx".data t then { g1 with series := some "RTX" }
      else if hasSub "gtx".data t then { g1 with series := some "GTX" }
      else g1
    let series_num :=
      ((groups.find? (fun g =>
        [some "40", some "30", some "20", some "16", some "10"].contains g)).getD none).getD ""
    let model_num :=
      ((groups.find? (fun g => exactDigits 2 (pyStr g))).getD none).getD ""
    let g3 : GPUInfo :=
      if series_num != "" && model_num != "" then
        { g2 with model := some (series_num ++ model_num) }
      else g2
    if hasSub "ti".data t then { g3 with variant := some "Ti" }
    else if hasSub "super".data t then { g3 with variant := some "SUPER" }
    else g3
  | none =>
  match firstMatch intelGpuPatterns t with
  | some _ =>
    let g1 : GPUInfo := { gpu_info with brand := some "Intel" }
    if hasSub "arc".data t then
      let g2 : GPUInfo := { g1 with series := some "Arc" }
      match reSearch arcInnerPat t with
      | some caps =>
        let pfx := pyGroupStr caps 1
        let number := (pyGroupStr caps 2).getD ""
        if strTruthy pfx then
          { g2 with model := some ((toUpperL (pfx.getD "").data).asString ++ number) }
        else { g2 with model := some number }
      | none => g2
    else if hasSub "iris".data t then
      let g2 : GPUInfo := { g1 with series := some "Iris" }
      if hasSub "xe max".data t then { g2 with variant := some "Xe MAX" }
      else if hasSub "xe".data t then { g2 with variant := some "Xe" }
      else if hasSub "pro".data t then { g2 with variant := some "Pro" }
      else if hasSub "plus".data t then { g2 with variant := some "Plus" }
      else g2
    else if hasSub "uhd".data t || hasSub "hd".data t then
      let g2 : GPUInfo :=
        { g1 with series := some (if hasSub "uhd".data t then "UHD" else "HD") }
      match reSearch hdInnerPat t with
      | some caps => { g2 with model := pyGroupStr caps 1 }
      | none => g2
    else g1
  | none =>
  match firstMatch amdGpuPatterns t with
  | some groups =>
    let g1 : GPUInfo := { gpu_info with brand := some "AMD", series := some "RX" }
    let series_num :=
      ((groups.find? (fun g =>
        [some "7", some "6", some "5", some "4"].contains g)).getD none).getD ""
    let model_num :=
      ((groups.find? (fun g => exactDigits 3 (pyStr g))).getD none).getD ""
    let g2 : GPUInfo :=
      if series_num != "" && model_num != "" then
        { g1 with model := some (series_num ++ model_num) }
      else g1
    if hasSub "xt".data t then { g2 with variant := some "XT" } else g2
  | none => gpu_info

/-- SpecificationParser.parse_cpu_from_text. -/
def parse_cpu_from_text (text : Option String) (is_technical_detail : Bool) : CPUInfo :=
  if strTruthy text = false then {} else
  let t := stripL (toLowerL (text.getD "").data)
  let cpu_info : CPUInfo :=
    { source := some (if is_technical_detail then "technical_detail" else "title")
      confidence := some (if is_technical_detail then "high" else "low") }
  match firstMatch intelCpuPatterns t with
  | some groups =>
    let c1 : CPUInfo := { cpu_info with brand := some "Intel" }
    let series :=
      ((groups.find? (fun g =>
        [some "ultra", some "i3", some "i5", some "i7", some "i9"].contains g)).getD none).getD ""
    let c2 : CPUInfo :=
      { c1 with series := if series != "" then some (toUpperL series.data).asString else none }
    let gen := ((groups.find? (fun g => leadDigits 1 (pyStr g))).getD none).getD ""
    let c3 : CPUInfo :=
      if gen != "" then { c2 with generation := some (gen ++ "th Gen") } else c2
    let model := ((groups.find? (fun g => leadDigits 3 (pyStr g))).getD none).getD ""
    let c4 : CPUInfo := if model != "" then { c3 with model := some model } else c3
    let variant :=
      (groups.find? (fun g =>
        [some "h", some "u", some "hx", some "k"].contains g)).getD none
    if strTruthy variant then
      { c4 with variant := some (toUpperL (variant.getD "").data).asString }
    else c4
  | none =>
  match firstMatch amdCpuPatterns t with
  | some groups =>
    let c1 : CPUInfo := { cpu_info with brand := some "AMD" }
    let c2 : CPUInfo :=
      if hasSub "ryzen".data t then
        let ryzen_num :=
          ((groups.find? (fun g =>
            [some "3", some "5", some "7", some "9"].contains g)).getD none).getD ""
        { c1 with series := some ("Ryzen " ++ ryzen_num) }
      else c1
    let model := ((groups.find? (fun g => leadDigits 4 (pyStr g))).getD none).getD ""
    let c3 : CPUInfo :=
      if model != "" then
        { c2 with model := some model,
                  generation := some ("Gen " ++ (model.data.take 1).asString) }
      else c2
    let variant :=
      (groups.find? (fun g => [some "h", some "u", some "hx"].contains g)).getD none
    if strTruthy variant then
      { c3 with variant := some (toUpperL (variant.getD "").data).asString }
    else c3
  | none => cpu_info

/-- Python float() on the text matched by the number group
\d+(?:\.\d+)?, evaluated exactly in the rationals (every value the claims
inspect is exactly representable). -/
def pyFloatOfNum (cs : List Char) : ℚ :=
  let ip := cs.takeWhile (fun c => !(c == '.'))
  let fp := (cs.dropWhile (fun c => !(c == '.'))).drop 1
  (ip.foldl (fun a c => a * 10 + (c.toNat - 48)) 0 : ℕ) +
    ((fp.foldl (fun a c => a * 10 + (c.toNat - 48)) 0 : ℕ) : ℚ) / ((10 : ℚ) ^ fp.length)

/-- Python int() on a run of ASCII digits. -/
def pyIntOfNum (cs : List Char) : ℕ :=
  cs.foldl (fun a c => a * 10 + (c.toNat - 48)) 0

/-- The number regex (\d+(?:\.\d+)?) shared by four normalizers. -/
def numRE : RE := RE.seq dPlus (RE.opt (RE.seq (RE.cls ['.']) dPlus))

/-- The RAM-size pattern (\d+(?:\.\d+)?)\s*(GB|MB|TB)? with re.IGNORECASE. -/
def ramPat : RE :=
  seqL [RE.group 1 numRE, wsp,
        RE.opt (RE.group 2 (altL [litCI "gb", litCI "mb", litCI "tb"]))]

/-- The display-size pattern (\d+(?:\.\d+)?)\s*(?:inches|")? with
re.IGNORECASE. -/
def displayPat : RE :=
  seqL [RE.group 1 numRE, wsp,
        RE.opt (altL [litCI "inches", lit "\""])]

/-- The battery-life pattern (\d+(?:\.\d+)?)\s*(?:hours|hrs?)? with
re.IGNORECASE. -/
def batteryPat : RE :=
  seqL [RE.group 1 numRE, wsp,
        RE.opt (altL [litCI "hours", RE.seq (litCI "hr") (RE.opt (RE.cls ['s', 'S']))])]

/-- The weight pattern (\d+(?:\.\d+)?)\s*(kg|g|kilograms|grams)? with
re.IGNORECASE. -/
def weightPat : RE :=
  seqL [RE.group 1 numRE, wsp,
        RE.opt (RE.group 2 (altL [litCI "kg", litCI "g", litCI "kilograms", litCI "grams"]))]

/-- The port-count pattern (\d+), no flags. -/
def portPat : RE := RE.group 1 dPlus

/-- AmazonParser.normalize_ram_size: convert RAM size text to GB. -/
def normalize_ram_size (ram_size : Option String) : Option ℚ :=
  if strTruthy ram_size = false then none else
  match reSearch ramPat (ram_size.getD "").data with
  | some caps =>
    let size := pyFloatOfNum ((getGroup caps 1).getD [])
    match pyGroupStr caps 2 with
    | some u =>
      let uu := (toUpperL u.data).asString
      if uu == "MB" then some (size / 1024)
      else if uu == "TB" then some (size * 1024)
      else some size
    | none => some size
  | none => none

/-- AmazonParser.normalize_display_size: convert display size text to
inches. -/
def normalize_display_size (display_size : Option String) : Option ℚ :=
  if strTruthy display_size = false then none else
  match reSearch displayPat (display_size.getD "").data with
  | some caps => some (pyFloatOfNum ((getGroup caps 1).getD []))
  | none => none

/-- AmazonParser.normalize_battery_life: convert battery life text to
hours. -/
def normalize_battery_life (battery_life : Option String) : Option ℚ :=
  if strTruthy battery_life = false then none else
  match reSearch batteryPat (battery_life.getD "").data with
  | some caps => some (pyFloatOfNum ((getGroup caps 1).getD []))
  | none => none

/-- AmazonParser.normalize_weight: convert weight text to kilograms. -/
def normalize_weight (weight : Option String) : Option ℚ :=
  if strTruthy weight = false then none else
  match reSearch weightPat (weight.getD "").data with
  | some caps =>
    let value := pyFloatOfNum ((getGroup caps 1).getD [])
    match pyGroupStr caps 2 with
    | some u =>
      let lu := (toLowerL u.data).asString
      if lu == "g" || lu == "grams" then some (value / 1000) else some value
    | none => some value
  | none => none

/-- AmazonParser.normalize_port_count: convert port count text to an
integer. -/
def normalize_port_count (port_count : Option String) : Option ℕ :=
  if strTruthy port_count = false then none else
  match reSearch portPat (port_count.getD "").data with
  | some caps => some (pyIntOfNum ((getGroup caps 1).getD []))
  | none => none

/-- The ProcessingStats dataclass (counters). -/
structure ProcessingStats where
  total_documents : ℕ := 0
  successful_processing : ℕ := 0
  failed_processing : ℕ := 0
  inserted_documents : ℕ := 0
  gpu_conflicts : ℕ := 0
  cpu_conflicts : ℕ := 0
deriving DecidableEq

/-- One conflict record as appended by standardize_specs. -/
structure Conflict where
  component : String
  field : String
  tech_value : String
  title_value : String
  resolution : String
deriving DecidableEq

/-- The memory sub-record of the specification dictionary. -/
structure MemorySpec where
  ram_size : Option ℚ
  technology : Option String
  max_supported : Option String
deriving DecidableEq

/-- The storage sub-record. -/
structure StorageSpec where
  size : Option String
  type : Option String
  interface : Option String
deriving DecidableEq

/-- The display sub-record. -/
structure DisplaySpec where
  size : Option ℚ
  resolution : Option String
deriving DecidableEq

/-- The battery sub-record. -/
structure BatterySpec where
  life : Option ℚ
  cells : Option String
  energy_content : Option String
deriving DecidableEq

/-- The physical sub-record. -/
structure PhysicalSpec where
  dimensions : Option String
  weight : Option ℚ
  color : Option String
deriving DecidableEq

/-- The connectivity sub-record. -/
structure ConnectivitySpec where
  type : Option String
  usb2_ports : Option ℕ
  usb3_ports : Option ℕ
deriving DecidableEq

/-- The specification dictionary built by standardize_specs.  The
specification_conflicts key is optional: None models the key being absent
from the dictionary. -/
structure Specification where
  brand : Option String
  model : Option String
  series : Option String
  processor : CPUInfo
  graphics : GPUInfo
  memory : MemorySpec
  storage : StorageSpec
  display : DisplaySpec
  operating_system : Option String
  battery : BatterySpec
  physical : PhysicalSpec
  connectivity : ConnectivitySpec
  included_components : Option String
  specification_conflicts : Option (List Conflict)
deriving DecidableEq

/-- The technical-detail table: label/value pairs; dict.get is lookup of
the first binding of a key (keys of a parsed table are distinct). -/
abbrev TechDetails := List (String × String)

/-- dict.get with no default: None when the key is missing. -/
def tdGet (td : TechDetails) (k : String) : Option String :=
  (td.find? (fun p => p.1 == k)).map (fun p => p.2)

/-- The technical-detail GPU classification made by standardize_specs:
tech_details.get("Graphics Card Description", "") classified as a
technical-detail source. -/
def techGpuOf (td : TechDetails) : GPUInfo :=
  parse_gpu_from_text (some ((tdGet td "Graphics Card Description").getD "")) true

/-- The title GPU classification made by standardize_specs. -/
def titleGpuOf (title : Option String) : GPUInfo :=
  parse_gpu_from_text title false

/-- The technical-detail CPU classification made by standardize_specs. -/
def techCpuOf (td : TechDetails) : CPUInfo :=
  parse_cpu_from_text (some ((tdGet td "Processor Type").getD "")) true

/-- The title CPU classification made by standardize_specs. -/
def titleCpuOf (title : Option String) : CPUInfo :=
  parse_cpu_from_text title false

/-- The GPU brand-conflict test of standardize_specs:
tech_gpu.brand and title_gpu.brand and tech_gpu.brand != title_gpu.brand. -/
def gpuConflictB (td : TechDetails) (title : Option String) : Bool :=
  strTruthy (techGpuOf td).brand && strTruthy (titleGpuOf title).brand &&
    !((techGpuOf td).brand == (titleGpuOf title).brand)

/-- The CPU brand-conflict test of standardize_specs. -/
def cpuConflictB (td : TechDetails) (title : Option String) : Bool :=
  strTruthy (techCpuOf td).brand && strTruthy (titleCpuOf title).brand &&
    !((techCpuOf td).brand == (titleCpuOf title).brand)

/-- The GPU conflict record appended by standardize_specs when
gpuConflictB holds. -/
def gpuConflictRec (td : TechDetails) (title : Option String) : Conflict :=
  { component := "GPU", field := "brand",
    tech_value := (techGpuOf td).brand.getD "",
    title_value := (titleGpuOf title).brand.getD "",
    resolution := "Used technical detail value: " ++ (techGpuOf td).brand.getD "" }

/-- The CPU conflict record appended by standardize_specs when
cpuConflictB holds. -/
def cpuConflictRec (td : TechDetails) (title : Option String) : Conflict :=
  { component := "CPU", field := "brand",
    tech_value := (techCpuOf td).brand.getD "",
    title_value := (titleCpuOf title).brand.getD "",
    resolution := "Used technical detail value: " ++ (techCpuOf td).brand.getD "" }

/-- AmazonParser.standardize_specs.  The stats mutation of the source
(self.stats.gpu_conflicts += 1 and likewise for CPU) is made explicit by
threading the counters through and returning them next to the
specification dictionary. -/
def standardize_specs (td : TechDetails) (title : Option String)
    (stats : ProcessingStats) : Specification × ProcessingStats :=
  let tech_gpu := techGpuOf td
  let title_gpu := titleGpuOf title
  let tech_cpu := techCpuOf td
  let title_cpu := titleCpuOf title
  let conflicts : List Conflict :=
    (if gpuConflictB td title then [gpuConflictRec td title] else []) ++
      (if cpuConflictB td title then [cpuConflictRec td title] else [])
  let final_gpu := if strTruthy tech_gpu.brand then tech_gpu else title_gpu
  let final_cpu := if strTruthy tech_cpu.brand then tech_cpu else title_cpu
  let stats2 : ProcessingStats :=
    { stats with
      gpu_conflicts := stats.gpu_conflicts + (if gpuConflictB td title then 1 else 0),
      cpu_conflicts := stats.cpu_conflicts + (if cpuConflictB td title then 1 else 0) }
  ({ brand := tdGet td "Brand",
     model := tdGet td "Item model number",
     series := tdGet td "Series",
     processor := final_cpu,
     graphics := final_gpu,
     memory :=
       { ram_size := normalize_ram_size (tdGet td "RAM Size"),
         technology := tdGet td "Memory Technology",
         max_supported := tdGet td "Maximum Memory Supported" },
     storage :=
       { size := tdGet td "Hard Drive Size",
         type := tdGet td "Hard Disk Description",
         interface := tdGet td "Hard Drive Interface" },
     display :=
       { size := normalize_display_size (tdGet td "Standing screen display size"),
         resolution := tdGet td "Screen Resolution" },
     operating_system := tdGet td "Operating System",
     battery :=
       { life := normalize_battery_life (tdGet td "Average Battery Life (in hours)"),
         cells := tdGet td "Number of Lithium Ion Cells",
         energy_content := tdGet td "Lithium Battery Energy Content" },
     physical :=
       { dimensions := tdGet td "Product Dimensions",
         weight := normalize_weight (tdGet td "Item Weight"),
         color := tdGet td "Colour" },
     connectivity :=
       { type := tdGet td "Connectivity Type",
         usb2_ports := normalize_port_count (tdGet td "Number of USB 2.0 Ports"),
         usb3_ports := normalize_port_count (tdGet td "Number of USB 3.0 Ports") },
     included_components := tdGet td "Included Components",
     specification_conflicts := if conflicts.isEmpty then none else some conflicts },
   stats2)

theorem gpu_falsy (t : Option String) (b : Bool) (h : strTruthy t = false) :
    parse_gpu_from_text t b = {} := by
  unfold parse_gpu_from_text
  exact if_pos h

theorem cpu_falsy (t : Option String) (b : Bool) (h : strTruthy t = false) :
    parse_cpu_from_text t b = {} := by
  unfold parse_cpu_from_text
  exact if_pos h

set_option maxHeartbeats 2000000 in
theorem gpu_profile (t : Option String) (b : Bool) (h : strTruthy t = true) :
    (parse_gpu_from_text t b).source = some (if b then "technical_detail" else "title") ∧
    (parse_gpu_from_text t b).confidence = some (if b then "high" else "low") ∧
    (parse_gpu_from_text t b =
        { brand := none, series := none, model := none, variant := none,
          source := some (if b then "technical_detail" else "title"),
          confidence := some (if b then "high" else "low") } ∨
      ∃ s, s ≠ "" ∧ (parse_gpu_from_text t b).brand = some s) := by
  unfold parse_gpu_from_text
  simp only [h]
  repeat' split
  all_goals (try contradiction)
  all_goals simp

set_option maxHeartbeats 2000000 in
theorem cpu_profile (t : Option String) (b : Bool) (h : strTruthy t = true) :
    (parse_cpu_from_text t b).source = some (if b then "technical_detail" else "title") ∧
    (parse_cpu_from_text t b).confidence = some (if b then "high" else "low") ∧
    (parse_cpu_from_text t b =
        { brand := none, series := none, generation := none, model := none, variant := none,
          source := some (if b then "technical_detail" else "title"),
          confidence := some (if b then "high" else "low") } ∨
      ∃ s, s ≠ "" ∧ (parse_cpu_from_text t b).brand = some s) := by
  unfold parse_cpu_from_text
  simp only [h]
  repeat' split
  all_goals (try contradiction)
  all_goals simp

theorem gpu_brand_truthy (t : Option String) (b : Bool) :
    strTruthy (parse_gpu_from_text t b).brand = true ↔
      (parse_gpu_from_text t b).brand ≠ none := by
  rcases Bool.eq_false_or_eq_true (strTruthy t) with ht | ht
  swap
  · rw [gpu_falsy t b ht]
    simp [strTruthy]
  · rcases (gpu_profile t b ht).2.2 with hrec | ⟨s, hs, hb⟩
    · rw [hrec]
      simp [strTruthy]
    · rw [hb]
      simp [strTruthy, hs]

theorem cpu_brand_truthy (t : Option String) (b : Bool) :
    strTruthy (parse_cpu_from_text t b).brand = true ↔
      (parse_cpu_from_text t b).brand ≠ none := by
  rcases Bool.eq_false_or_eq_true (strTruthy t) with ht | ht
  swap
  · rw [cpu_falsy t b ht]
    simp [strTruthy]
  · rcases (cpu_profile t b ht).2.2 with hrec | ⟨s, hs, hb⟩
    · rw [hrec]
      simp [strTruthy]
    · rw [hb]
      simp [strTruthy, hs]

/-- C7: every ComponentInfo either classifier returns has confidence high
exactly when its source is technical_detail: for nonempty text both fields
follow the tag in lockstep, for empty text both are absent. -/
theorem confidence_iff_source (t : Option String) (b : Bool) :
    ((parse_gpu_from_text t b).confidence = some "high" ↔
      (parse_gpu_from_text t b).source = some "technical_detail") ∧
    ((parse_cpu_from_text t b).confidence = some "high" ↔
      (parse_cpu_from_text t b).source = some "technical_detail") := by
  rcases Bool.eq_false_or_eq_true (strTruthy t) with ht | ht
  swap
  · rw [gpu_falsy t b ht, cpu_falsy t b ht]
    constructor <;> simp
  · obtain ⟨hs, hc, -⟩ := gpu_profile t b ht
    obtain ⟨hs2, hc2, -⟩ := cpu_profile t b ht
    rw [hs, hc, hs2, hc2]
    cases b <;> simp

theorem confidence_iff_source_witness :
    (parse_gpu_from_text (some "rtx 4060") true).confidence = some "high" ↔
      (parse_gpu_from_text (some "rtx 4060") true).source = some "technical_detail" :=
  (confidence_iff_source (some "rtx 4060") true).1

/-- C10: when a classification carries no brand, all the other identity
fields (series, model, variant, and generation for CPU) are absent too. -/
theorem absent_brand_absent_identity (t : Option String) (b : Bool) :
    ((parse_gpu_from_text t b).brand = none →
      (parse_gpu_from_text t b).series = none ∧
      (parse_gpu_from_text t b).model = none ∧
      (parse_gpu_from_text t b).variant = none) ∧
    ((parse_cpu_from_text t b).brand = none →
      (parse_cpu_from_text t b).series = none ∧
      (parse_cpu_from_text t b).generation = none ∧
      (parse_cpu_from_text t b).model = none ∧
      (parse_cpu_from_text t b).variant = none) := by
  rcases Bool.eq_false_or_eq_true (strTruthy t) with ht | ht
  swap
  · rw [gpu_falsy t b ht, cpu_falsy t b ht]
    simp
  · constructor
    · rcases (gpu_profile t b ht).2.2 with hrec | ⟨s, hs, hb⟩
      · rw [hrec]
        simp
      · rw [hb]
        simp
    · rcases (cpu_profile t b ht).2.2 with hrec | ⟨s, hs, hb⟩
      · rw [hrec]
        simp
      · rw [hb]
        simp

theorem absent_brand_absent_identity_witness :
    ((parse_gpu_from_text (some "x") true).series = none ∧
      (parse_gpu_from_text (some "x") true).model = none ∧
      (parse_gpu_from_text (some "x") true).variant = none) ∧
    ((parse_cpu_from_text (some "x") true).series = none ∧
      (parse_cpu_from_text (some "x") true).generation = none ∧
      (parse_cpu_from_text (some "x") true).model = none ∧
      (parse_cpu_from_text (some "x") true).variant = none) :=
  ⟨(absent_brand_absent_identity (some "x") true).1 (by decide),
   (absent_brand_absent_identity (some "x") true).2 (by decide)⟩

/-- C4 counterexample: on the empty technical-detail text with the
technical-detail tag, the source field is None, not technical_detail: the
early return hands back the all-default record without applying the tag. -/
theorem empty_text_tag_counterexample :
    ¬ ((parse_gpu_from_text (some "") true).source = some "technical_detail" ∧
       (parse_cpu_from_text (some "") true).source = some "technical_detail") := by
  decide

/-- C4 amended: for every absent or empty input text and either tag, both
classifiers return the all-default record: identity fields absent and the
source/confidence fields absent as well (the tag is not applied). -/
theorem empty_text_default_record (t : Option String) (b : Bool)
    (h : strTruthy t = false) :
    parse_gpu_from_text t b = {} ∧ parse_cpu_from_text t b = {} :=
  ⟨gpu_falsy t b h, cpu_falsy t b h⟩

theorem empty_text_default_record_witness :
    parse_gpu_from_text (some "") true = {} ∧ parse_cpu_from_text (some "") true = {} :=
  empty_text_default_record (some "") true rfl

theorem graphics_final (td : TechDetails) (title : Option String) (st : ProcessingStats) :
    (standardize_specs td title st).1.graphics =
      (if strTruthy (techGpuOf td).brand then techGpuOf td else titleGpuOf title) := rfl

theorem processor_final (td : TechDetails) (title : Option String) (st : ProcessingStats) :
    (standardize_specs td title st).1.processor =
      (if strTruthy (techCpuOf td).brand then techCpuOf td else titleCpuOf title) := rfl

theorem gpu_counter_final (td : TechDetails) (title : Option String) (st : ProcessingStats) :
    (standardize_specs td title st).2.gpu_conflicts =
      st.gpu_conflicts + (if gpuConflictB td title then 1 else 0) := rfl

theorem cpu_counter_final (td : TechDetails) (title : Option String) (st : ProcessingStats) :
    (standardize_specs td title st).2.cpu_conflicts =
      st.cpu_conflicts + (if cpuConflictB td title then 1 else 0) := rfl

theorem techGpu_truthy (td : TechDetails) :
    strTruthy (techGpuOf td).brand = true ↔ (techGpuOf td).brand ≠ none :=
  gpu_brand_truthy _ _

theorem titleGpu_truthy (title : Option String) :
    strTruthy (titleGpuOf title).brand = true ↔ (titleGpuOf title).brand ≠ none :=
  gpu_brand_truthy _ _

theorem techCpu_truthy (td : TechDetails) :
    strTruthy (techCpuOf td).brand = true ↔ (techCpuOf td).brand ≠ none :=
  cpu_brand_truthy _ _

theorem titleCpu_truthy (title : Option String) :
    strTruthy (titleCpuOf title).brand = true ↔ (titleCpuOf title).brand ≠ none :=
  cpu_brand_truthy _ _

theorem graphics_final_tech (td : TechDetails) (title : Option String)
    (st : ProcessingStats) (h : (techGpuOf td).brand ≠ none) :
    (standardize_specs td title st).1.graphics = techGpuOf td := by
  rw [graphics_final, if_pos ((techGpu_truthy td).2 h)]

theorem graphics_final_title (td : TechDetails) (title : Option String)
    (st : ProcessingStats) (h : (techGpuOf td).brand = none) :
    (standardize_specs td title st).1.graphics = titleGpuOf title := by
  rw [graphics_final, if_neg (fun hc => ((techGpu_truthy td).1 hc) h)]

theorem processor_final_tech (td : TechDetails) (title : Option String)
    (st : ProcessingStats) (h : (techCpuOf td).brand ≠ none) :
    (standardize_specs td title st).1.processor = techCpuOf td := by
  rw [processor_final, if_pos ((techCpu_truthy td).2 h)]

theorem processor_final_title (td : TechDetails) (title : Option String)
    (st : ProcessingStats) (h : (techCpuOf td).brand = none) :
    (standardize_specs td title st).1.processor = titleCpuOf title := by
  rw [processor_final, if_neg (fun hc => ((techCpu_truthy td).1 hc) h)]

/-- C1: for each component the assembled record takes the technical-detail
classification whenever that classification identified a brand, and the
title classification otherwise; the winner is taken wholesale as one
record, never merged field by field. -/
theorem component_precedence (td : TechDetails) (title : Option String)
    (st : ProcessingStats) :
    ((techGpuOf td).brand ≠ none →
      (standardize_specs td title st).1.graphics = techGpuOf td) ∧
    ((techGpuOf td).brand = none →
      (standardize_specs td title st).1.graphics = titleGpuOf title) ∧
    ((techCpuOf td).brand ≠ none →
      (standardize_specs td title st).1.processor = techCpuOf td) ∧
    ((techCpuOf td).brand = none →
      (standardize_specs td title st).1.processor = titleCpuOf title) :=
  ⟨graphics_final_tech td title st, graphics_final_title td title st,
   processor_final_tech td title st, processor_final_title td title st⟩

/-- Sample technical-detail table carrying a GPU and a CPU text. -/
def wTd : TechDetails :=
  [("Graphics Card Description", "rtx 4060"), ("Processor Type", "ryzen 5 5600h")]

theorem component_precedence_witness :
    ((standardize_specs wTd none {}).1.graphics = techGpuOf wTd ∧
      (standardize_specs wTd none {}).1.processor = techCpuOf wTd) ∧
    ((standardize_specs [] none {}).1.graphics = titleGpuOf none ∧
      (standardize_specs [] none {}).1.processor = titleCpuOf none) :=
  ⟨⟨(component_precedence wTd none {}).1 (by decide),
    (component_precedence wTd none {}).2.2.1 (by decide)⟩,
   ⟨(component_precedence [] none {}).2.1 (by decide),
    (component_precedence [] none {}).2.2.2 (by decide)⟩⟩

theorem gpuConflictB_iff (td : TechDetails) (title : Option String) :
    gpuConflictB td title = true ↔
      ((techGpuOf td).brand ≠ none ∧ (titleGpuOf title).brand ≠ none ∧
        (techGpuOf td).brand ≠ (titleGpuOf title).brand) := by
  unfold gpuConflictB
  simp only [Bool.and_eq_true, Bool.not_eq_true', beq_eq_false_iff_ne, and_assoc]
  rw [techGpu_truthy, titleGpu_truthy]

theorem cpuConflictB_iff (td : TechDetails) (title : Option String) :
    cpuConflictB td title = true ↔
      ((techCpuOf td).brand ≠ none ∧ (titleCpuOf title).brand ≠ none ∧
        (techCpuOf td).brand ≠ (titleCpuOf title).brand) := by
  unfold cpuConflictB
  simp only [Bool.and_eq_true, Bool.not_eq_true', beq_eq_false_iff_ne, and_assoc]
  rw [techCpu_truthy, titleCpu_truthy]

theorem conflicts_list_final (td : TechDetails) (title : Option String)
    (st : ProcessingStats) :
    (standardize_specs td title st).1.specification_conflicts.getD [] =
      (if gpuConflictB td title then [gpuConflictRec td title] else []) ++
        (if cpuConflictB td title then [cpuConflictRec td title] else []) := by
  by_cases g : gpuConflictB td title <;> by_cases c : cpuConflictB td title <;>
    simp [standardize_specs, g, c]

theorem conflicts_key_final (td : TechDetails) (title : Option String)
    (st : ProcessingStats) :
    (standardize_specs td title st).1.specification_conflicts =
      (if (((if gpuConflictB td title then [gpuConflictRec td title] else []) ++
          (if cpuConflictB td title then [cpuConflictRec td title] else []) :
            List Conflict)).isEmpty
        then none
        else some ((if gpuConflictB td title then [gpuConflictRec td title] else []) ++
          (if cpuConflictB td title then [cpuConflictRec td title] else []))) := rfl

/-- C2: a conflict record for a component is appended and its counter
incremented by exactly one precisely when both sources identified a brand
and the two brand strings differ; sub-field mismatches alone never record
a conflict, and an absent technical-detail brand records nothing and lets
the title result become final. -/
theorem brand_conflict_characterization (td : TechDetails) (title : Option String)
    (st : ProcessingStats) :
    (((techGpuOf td).brand ≠ none ∧ (titleGpuOf title).brand ≠ none ∧
        (techGpuOf td).brand ≠ (titleGpuOf title).brand) ↔
      (gpuConflictRec td title ∈
          (standardize_specs td title st).1.specification_conflicts.getD [] ∧
        (standardize_specs td title st).2.gpu_conflicts = st.gpu_conflicts + 1)) ∧
    (¬((techGpuOf td).brand ≠ none ∧ (titleGpuOf title).brand ≠ none ∧
        (techGpuOf td).brand ≠ (titleGpuOf title).brand) →
      ((∀ c ∈ (standardize_specs td title st).1.specification_conflicts.getD [],
          c.component ≠ "GPU") ∧
        (standardize_specs td title st).2.gpu_conflicts = st.gpu_conflicts)) ∧
    ((techGpuOf td).brand = none →
      (standardize_specs td title st).1.graphics = titleGpuOf title) ∧
    (((techCpuOf td).brand ≠ none ∧ (titleCpuOf title).brand ≠ none ∧
        (techCpuOf td).brand ≠ (titleCpuOf title).brand) ↔
      (cpuConflictRec td title ∈
          (standardize_specs td title st).1.specification_conflicts.getD [] ∧
        (standardize_specs td title st).2.cpu_conflicts = st.cpu_conflicts + 1)) ∧
    (¬((techCpuOf td).brand ≠ none ∧ (titleCpuOf title).brand ≠ none ∧
        (techCpuOf td).brand ≠ (titleCpuOf title).brand) →
      ((∀ c ∈ (standardize_specs td title st).1.specification_conflicts.getD [],
          c.component ≠ "CPU") ∧
        (standardize_specs td title st).2.cpu_conflicts = st.cpu_conflicts)) ∧
    ((techCpuOf td).brand = none →
      (standardize_specs td title st).1.processor = titleCpuOf title) := by
  rw [← gpuConflictB_iff td title, ← cpuConflictB_iff td title]
  rw [conflicts_list_final, gpu_counter_final, cpu_counter_final]
  refine ⟨?_, ?_, graphics_final_title td title st, ?_, ?_, processor_final_title td title st⟩
  · by_cases g : gpuConflictB td title <;> by_cases c : cpuConflictB td title <;>
      simp [g, c, gpuConflictRec, cpuConflictRec]
  · intro h
    have g : gpuConflictB td title = false := by
      rcases Bool.eq_false_or_eq_true (gpuConflictB td title) with hg | hg
      · exact absurd hg h
      · exact hg
    by_cases c : cpuConflictB td title <;>
      simp [g, c, gpuConflictRec, cpuConflictRec]
  · by_cases g : gpuConflictB td title <;> by_cases c : cpuConflictB td title <;>
      simp [g, c, gpuConflictRec, cpuConflictRec]
  · intro h
    have c : cpuConflictB td title = false := by
      rcases Bool.eq_false_or_eq_true (cpuConflictB td title) with hc | hc
      · exact absurd hc h
      · exact hc
    by_cases g : gpuConflictB td title <;>
      simp [g, c, gpuConflictRec, cpuConflictRec]

/-- Sample table with a GPU text only; its title names a different GPU brand. -/
def wTd2 : TechDetails := [("Graphics Card Description", "rx 6600")]

/-- Title for wTd2 carrying an NVIDIA GPU pattern. -/
def wTitle2 : Option String := some "rtx 3050"

/-- Sample table with a CPU text only; its title names a different CPU brand. -/
def wTd3 : TechDetails := [("Processor Type", "ryzen 5 5600h")]

/-- Title for wTd3 carrying an Intel CPU pattern. -/
def wTitle3 : Option String := some "i7-12700h"

theorem brand_conflict_characterization_witness :
    (gpuConflictRec wTd2 wTitle2 ∈
        (standardize_specs wTd2 wTitle2 {}).1.specification_conflicts.getD [] ∧
      (standardize_specs wTd2 wTitle2 {}).2.gpu_conflicts =
        ({} : ProcessingStats).gpu_conflicts + 1) ∧
    ((∀ c ∈ (standardize_specs wTd3 wTitle3 {}).1.specification_conflicts.getD [],
        c.component ≠ "GPU") ∧
      (standardize_specs wTd3 wTitle3 {}).2.gpu_conflicts =
        ({} : ProcessingStats).gpu_conflicts) ∧
    (standardize_specs wTd3 wTitle3 {}).1.graphics = titleGpuOf wTitle3 ∧
    (cpuConflictRec wTd3 wTitle3 ∈
        (standardize_specs wTd3 wTitle3 {}).1.specification_conflicts.getD [] ∧
      (standardize_specs wTd3 wTitle3 {}).2.cpu_conflicts =
        ({} : ProcessingStats).cpu_conflicts + 1) ∧
    ((∀ c ∈ (standardize_specs wTd2 wTitle2 {}).1.specification_conflicts.getD [],
        c.component ≠ "CPU") ∧
      (standardize_specs wTd2 wTitle2 {}).2.cpu_conflicts =
        ({} : ProcessingStats).cpu_conflicts) ∧
    (standardize_specs wTd2 wTitle2 {}).1.processor = titleCpuOf wTitle2 :=
  ⟨(brand_conflict_characterization wTd2 wTitle2 {}).1.mp (by decide),
   (brand_conflict_characterization wTd3 wTitle3 {}).2.1 (by decide),
   (brand_conflict_characterization wTd3 wTitle3 {}).2.2.1 (by decide),
   (brand_conflict_characterization wTd3 wTitle3 {}).2.2.2.1.mp (by decide),
   (brand_conflict_characterization wTd2 wTitle2 {}).2.2.2.2.1 (by decide),
   (brand_conflict_characterization wTd2 wTitle2 {}).2.2.2.2.2 (by decide)⟩

/-- C9: the assembled record carries the specification_conflicts key
exactly when a brand conflict was detected for the document, and the list
under the key is never empty; with no conflict the key is absent. -/
theorem conflicts_key_presence (td : TechDetails) (title : Option String)
    (st : ProcessingStats) :
    ((standardize_specs td title st).1.specification_conflicts ≠ none ↔
      (((techGpuOf td).brand ≠ none ∧ (titleGpuOf title).brand ≠ none ∧
          (techGpuOf td).brand ≠ (titleGpuOf title).brand) ∨
        ((techCpuOf td).brand ≠ none ∧ (titleCpuOf title).brand ≠ none ∧
          (techCpuOf td).brand ≠ (titleCpuOf title).brand))) ∧
    (∀ l, (standardize_specs td title st).1.specification_conflicts = some l →
      l ≠ []) := by
  rw [← gpuConflictB_iff td title, ← cpuConflictB_iff td title, conflicts_key_final]
  by_cases g : gpuConflictB td title <;> by_cases c : cpuConflictB td title <;>
    simp [g, c]

theorem conflicts_key_presence_witness :
    ((standardize_specs wTd2 wTitle2 {}).1.specification_conflicts ≠ none) ∧
    [gpuConflictRec wTd2 wTitle2] ≠ ([] : List Conflict) :=
  ⟨(conflicts_key_presence wTd2 wTitle2 {}).1.mpr (Or.inl (by decide)),
   (conflicts_key_presence wTd2 wTitle2 {}).2 [gpuConflictRec wTd2 wTitle2] (by decide)⟩

/-- C3: evaluating the GPU classifier at the claimed example input.  Brand
precedence holds (NVIDIA wins over the AMD substring), but the model is
"3030", not "3060": the first match group consisting of exactly two digits
is the series-number token itself, so the series token is concatenated
with itself instead of with the following two-digit token. -/
theorem gpu_example_rtx3060_eval :
    parse_gpu_from_text (some "RTX 3060 RX 6600") false =
      { brand := some "NVIDIA", series := some "RTX", model := some "3030",
        variant := none, source := some "title", confidence := some "low" } := by
  decide

/-- C5: evaluating the CPU classifier at the claimed example input.  Series
and generation come out as claimed, but the variant is absent, not "H":
the uncaptured [HKF]? consumes the trailing h before the variant group can
see it, so the variant group is None. -/
theorem cpu_example_i7_12700h_eval :
    parse_cpu_from_text (some "Intel Core i7-12700H") false =
      { brand := some "Intel", series := some "I7", generation := some "12th Gen",
        model := some "700", variant := none, source := some "title",
        confidence := some "low" } := by
  decide

/-- C6: RAM-size normalization converts the first numeric match to
gigabytes: 16 GB stays 16, an MB value is divided by 1024, a TB value is
multiplied by 1024, a number with no unit is returned unchanged, and text
with no numeric match yields None. -/
theorem ram_size_conversion :
    normalize_ram_size (some "16 GB") = some 16 ∧
    normalize_ram_size (some "16384 MB") = some 16 ∧
    normalize_ram_size (some "1 TB") = some 1024 ∧
    (∀ s : Option String, ∀ caps : Caps,
      strTruthy s = true →
      reSearch ramPat (s.getD "").data = some caps →
      getGroup caps 2 = none →
      normalize_ram_size s = some (pyFloatOfNum ((getGroup caps 1).getD []))) ∧
    (∀ s : Option String, reSearch ramPat (s.getD "").data = none →
      normalize_ram_size s = none) := by
  refine ⟨?_, ?_, ?_, ?_, ?_⟩
  · rw [show normalize_ram_size (some "16 GB") = some (pyFloatOfNum ['1', '6']) from rfl,
        show pyFloatOfNum ['1', '6'] =
          ((16 : ℕ) : ℚ) + ((0 : ℕ) : ℚ) / (10 : ℚ) ^ (0 : ℕ) from rfl]
    norm_num
  · rw [show normalize_ram_size (some "16384 MB") =
          some (pyFloatOfNum ['1', '6', '3', '8', '4'] / 1024) from rfl,
        show pyFloatOfNum ['1', '6', '3', '8', '4'] =
          ((16384 : ℕ) : ℚ) + ((0 : ℕ) : ℚ) / (10 : ℚ) ^ (0 : ℕ) from rfl]
    norm_num
  · rw [show normalize_ram_size (some "1 TB") =
          some (pyFloatOfNum ['1'] * 1024) from rfl,
        show pyFloatOfNum ['1'] =
          ((1 : ℕ) : ℚ) + ((0 : ℕ) : ℚ) / (10 : ℚ) ^ (0 : ℕ) from rfl]
    norm_num
  · intro s caps hs hm hg
    unfold normalize_ram_size
    rw [hs, if_neg (by simp), hm]
    simp [pyGroupStr, hg]
  · intro s hm
    unfold normalize_ram_size
    rcases Bool.eq_false_or_eq_true (strTruthy s) with h | h
    · rw [h, if_neg (by simp), hm]
    · rw [if_pos h]

theorem ram_size_conversion_witness :
    normalize_ram_size (some "32") =
      some (pyFloatOfNum ((getGroup [(1, ['3', '2'])] 1).getD [])) ∧
    normalize_ram_size (some "abc") = none :=
  ⟨ram_size_conversion.2.2.2.1 (some "32") [(1, ['3', '2'])]
      (by decide) (by decide) (by decide),
   ram_size_conversion.2.2.2.2 (some "abc") (by decide)⟩

/-- C8: the five unit normalizers are total functions into an optional
scalar by construction (they are plain Lean functions and can raise
nothing), and an absent or empty input short-circuits to None before any
match is attempted. -/
theorem normalizers_absent_on_falsy (s : Option String) (h : strTruthy s = false) :
    normalize_ram_size s = none ∧
    normalize_display_size s = none ∧
    normalize_battery_life s = none ∧
    normalize_weight s = none ∧
    normalize_port_count s = none := by
  unfold normalize_ram_size normalize_display_size normalize_battery_life
    normalize_weight normalize_port_count
  rw [h]
  simp

theorem normalizers_absent_on_falsy_witness :
    normalize_ram_size (some "") = none ∧
    normalize_display_size (some "") = none ∧
    normalize_battery_life (some "") = none ∧
    normalize_weight (some "") = none ∧
    normalize_port_count (some "") = none :=
  normalizers_absent_on_falsy (some "") rfl
